import Mathlib

/-!
# Verification of the photo-editing application against its specification

Shallow embedding of the repository's core logic:

* `DownloadModal.handleDownload`'s JPEG target-size loop
  (`src/components/DownloadModal.tsx`),
* the top-level view/state flow (`src/App.tsx`),
* the filter table and `getCombinedStyle` (`ImageControlPanel`),
* the AI request wrappers (`ImageGenerator`, `App.handleSubmitEdit`,
  `ImageControlPanel.handleApplyRetouch`),
* the two `getCroppedImg` crop helpers (`ImageEditor`, `CropModal`).

JPEG quality values are modelled in hundredths (the source's `0.95` is `95`),
so that the loop's arithmetic is exact.  Blob encoding is modelled by an
abstract size function `size : ℕ → ℕ` giving the byte size of the JPEG
encoding of the current canvas at a given quality (in hundredths).
-/

namespace Golder

/-! ## DownloadModal: JPEG target-size loop

Source (`src/components/DownloadModal.tsx`, `handleDownload`):

```
let quality = 0.95;
blob = await getBlob(canvas, 'image/jpeg', quality);
while (blob.size > targetBytes && quality > 0.1) {
    quality -= 0.05;
    blob = await getBlob(canvas, 'image/jpeg', Math.max(0.1, quality));
}
```
-/

/-- One run of the `while` loop of `handleDownload`'s JPEG target-size branch,
starting from quality `q` (hundredths) with current blob size `b`.
Returns the list of qualities passed to `getBlob` by the loop body, together
with the final blob size. -/
def jpegLoopAux (size : ℕ → ℕ) (target : ℕ) (q b : ℕ) : List ℕ × ℕ :=
  if h : b > target ∧ q > 10 then
    let q2 := q - 5
    let probe := max 10 q2
    let r := jpegLoopAux size target q2 (size probe)
    (probe :: r.1, r.2)
  else ([], b)
termination_by q
decreasing_by omega

/-- The whole JPEG target-size branch of `handleDownload`: the initial encode
at quality `0.95` followed by the reduction loop.  Returns the full list of
qualities passed to `getBlob` (in order) and the size of the final blob. -/
def jpegTargetEncode (size : ℕ → ℕ) (target : ℕ) : List ℕ × ℕ :=
  let b0 := size 95
  let r := jpegLoopAux size target 95 b0
  (95 :: r.1, r.2)

/-- The list of qualities the code probes. -/
def jpegProbes (size : ℕ → ℕ) (target : ℕ) : List ℕ :=
  (jpegTargetEncode size target).1

/-- Modelled from the spec: claim C1 says the quality value meeting the
target file size is "found by a binary search over JPEG quality".  The code
contains no such search, so this definition renders the claim's words: a
bisection of the quality interval `[0.1, 0.95]` (hundredths), probing the
midpoint and keeping the half according to whether the encoded size meets the
target.  Returns the list of probed qualities, for comparison with the
code's `jpegProbes`. -/
def binarySearchAux (size : ℕ → ℕ) (target lo hi : ℕ) : List ℕ :=
  if lo + 1 < hi then
    if size ((lo + hi) / 2) ≤ target then
      (lo + hi) / 2 :: binarySearchAux size target ((lo + hi) / 2) hi
    else
      (lo + hi) / 2 :: binarySearchAux size target lo ((lo + hi) / 2)
  else []
termination_by hi - lo
decreasing_by all_goals omega

/-- Modelled from the spec: the quality value a binary search over the
quality interval `[0.1, 0.95]` (hundredths) would settle on. -/
def binarySearchQuality (size : ℕ → ℕ) (target lo hi : ℕ) : ℕ :=
  if lo + 1 < hi then
    if size ((lo + hi) / 2) ≤ target then
      binarySearchQuality size target ((lo + hi) / 2) hi
    else
      binarySearchQuality size target lo ((lo + hi) / 2)
  else lo
termination_by hi - lo
decreasing_by all_goals omega

/-- Modelled from the spec: the full probe list of the claimed binary search,
started on the quality interval `[0.1, 0.95]` (hundredths). -/
def binarySearchProbes (size : ℕ → ℕ) (target : ℕ) : List ℕ :=
  binarySearchAux size target 10 95

/-! ## App.tsx: the view/state flow -/

/-- The five members of the `EditingStep` union type of `src/App.tsx`:
`upload | choice | ai-edit | studio | generation`. -/
inductive EditingStep
  | upload
  | choice
  | aiEdit
  | studio
  | generation
deriving DecidableEq, Fintype

/-- The components `renderContent` can mount. -/
inductive AppView
  | imageUploader
  | imageGenerator
  | editorChoice
  | imageEditor
  | resultDisplay
deriving DecidableEq, Fintype

/-- `App.renderContent`: a switch on `editingStep`.  The `choice`, `ai-edit`
and `studio` branches are guarded by `originalImage && …` and render nothing
when no image is loaded; the `default` branch renders the uploader. -/
def renderContent (hasOriginalImage : Bool) : EditingStep → Option AppView
  | .upload => some .imageUploader
  | .generation => some .imageGenerator
  | .choice => if hasOriginalImage then some .editorChoice else none
  | .aiEdit => if hasOriginalImage then some .imageEditor else none
  | .studio => if hasOriginalImage then some .resultDisplay else none

/-- The user/handler events that call `setEditingStep` in `src/App.tsx`,
one per call site. -/
inductive AppEvent
  | uploadDone      -- `handleImageUpload` success
  | startGeneration -- `ImageUploader` `onStartGeneration`
  | generated       -- `handleImageGenerated`
  | generatorBack   -- `ImageGenerator` `onBack`
  | chooseAiEdit    -- `EditorChoice` `onAiEdit`
  | chooseManual    -- `EditorChoice` `onManualEdit`
  | editSubmitOk    -- `handleSubmitEdit` success
  | editorBack      -- `ImageEditor` `onBack`
  | reset           -- `handleReset`
deriving DecidableEq, Fintype

/-- The step transitions of `src/App.tsx`: an event is available only in the
step whose rendered component wires its handler, and moves to the step set by
the corresponding `setEditingStep` call; `none` means no step change. -/
def appTransition : EditingStep → AppEvent → Option EditingStep
  | .upload, .uploadDone => some .choice
  | .upload, .startGeneration => some .generation
  | .generation, .generated => some .studio
  | .generation, .generatorBack => some .upload
  | .choice, .chooseAiEdit => some .aiEdit
  | .choice, .chooseManual => some .studio
  | .choice, .reset => some .upload
  | .aiEdit, .editSubmitOk => some .studio
  | .aiEdit, .editorBack => some .choice
  | .aiEdit, .reset => some .upload
  | .studio, .reset => some .upload
  | _, _ => none

/-- The union member names as written in the source. -/
def stepName : EditingStep → String
  | .upload => "upload"
  | .choice => "choice"
  | .aiEdit => "ai-edit"
  | .studio => "studio"
  | .generation => "generation"

/-- All values of the state variable. -/
def editingSteps : List EditingStep :=
  [.upload, .choice, .aiEdit, .studio, .generation]

/-- Modelled from the spec: the steps named by claim C3, which describes the
flow as "upload → choice → ai-edit/studio → result". -/
def claimedFlowSteps : List String :=
  ["upload", "choice", "ai-edit", "studio", "result"]

/-! ## DownloadModal: the fallible export pipeline -/

/-- The format toggle of the download modal. -/
inductive DlFormat
  | png
  | jpeg
deriving DecidableEq

/-- The observable outcome of one `handleDownload` run: the component state
it leaves behind, whether `link.click()` fired, and whether `onClose` ran. -/
structure DownloadOutcome where
  isProcessing : Bool
  downloadError : Option String
  downloadTriggered : Bool
  modalClosed : Bool
deriving DecidableEq

/-- The JPEG target-size loop over a fallible encoder: a `getBlob` rejection
aborts the loop and propagates to the surrounding try/catch. -/
def jpegLoopE (enc : ℕ → Except String ℕ) (target q b : ℕ) : Except String ℕ :=
  if _h : b > target ∧ q > 10 then
    match enc (max 10 (q - 5)) with
    | .error e => .error e
    | .ok b2 => jpegLoopE enc target (q - 5) b2
  else .ok b
termination_by q
decreasing_by omega

/-- The `try` body of `handleDownload`.  `canvas` is the result of
`getCanvasPromise()` (which renders the effects canvas and may reject);
`encPng` and `encJpeg` are the results of `getBlob` for the two mime types,
`encJpeg` taking the quality in hundredths.  Returns the final blob size. -/
def downloadBody (fmt : DlFormat) (targetEnabled : Bool) (sizeVal : ℕ)
    (unitKB : Bool) (jpegQuality : ℕ) (canvas : Except String Unit)
    (encPng : Except String ℕ) (encJpeg : ℕ → Except String ℕ) :
    Except String ℕ := do
  let _ ← canvas
  match fmt with
  | .png => encPng
  | .jpeg =>
    if targetEnabled then
      let targetBytes := sizeVal * (if unitKB then 1024 else 1024 * 1024)
      let b ← encJpeg 95
      jpegLoopE encJpeg targetBytes 95 b
    else
      encJpeg jpegQuality

/-- `handleDownload`: the body under try/catch/finally.  On rejection the
catch records the message and nothing is downloaded; on success the blob is
downloaded and the modal closed; `finally` resets `isProcessing`. -/
def handleDownload (fmt : DlFormat) (targetEnabled : Bool) (sizeVal : ℕ)
    (unitKB : Bool) (jpegQuality : ℕ) (canvas : Except String Unit)
    (encPng : Except String ℕ) (encJpeg : ℕ → Except String ℕ) :
    DownloadOutcome :=
  match downloadBody fmt targetEnabled sizeVal unitKB jpegQuality canvas encPng encJpeg with
  | .error m => ⟨false, some m, false, false⟩
  | .ok _ => ⟨false, none, true, true⟩

/-! ## ImageControlPanel: filter table and getCombinedStyle

CSS filter strings are modelled as lists of filter functions with rational
arguments; the template instantiation `` `brightness(${100 + 5 * (i/100)}%)` ``
becomes the list element `.brightness (100 + 5 * (i / 100))`. -/

/-- One CSS filter function with its argument (percent, degrees or pixels,
as in the source template). -/
inductive FilterFn
  | brightness (v : ℚ)
  | contrast (v : ℚ)
  | saturate (v : ℚ)
  | sepia (v : ℚ)
  | hueRotate (v : ℚ)
  | grayscale (v : ℚ)
  | invert (v : ℚ)
  | blur (v : ℚ)
deriving DecidableEq

/-- The static `filters` table of `ImageControlPanel`: each named preset maps
the intensity `i` to its CSS filter string. -/
def filters : List (String × (ℚ → List FilterFn)) :=
  [ ("None", fun _ => []),
    ("Auto Enhance", fun i =>
      [.brightness (100 + 5 * (i / 100)), .contrast (100 + 15 * (i / 100)),
       .saturate (100 + 20 * (i / 100))]),
    ("Grayscale", fun i => [.grayscale i]),
    ("Sepia", fun i => [.sepia i]),
    ("Invert", fun i => [.invert i]),
    ("Noir", fun i =>
      [.grayscale 100, .contrast (100 + 25 * (i / 100)),
       .brightness (100 - 10 * (i / 100))]),
    ("Vibrant", fun i => [.saturate (100 + 50 * (i / 100))]),
    ("Cool", fun i =>
      [.hueRotate (-(15 * (i / 100))), .saturate (100 + 25 * (i / 100))]),
    ("Warm", fun i =>
      [.sepia (20 * (i / 100)), .saturate (100 + 25 * (i / 100)),
       .brightness (100 + 5 * (i / 100))]),
    ("High Contrast", fun i => [.contrast (100 + 100 * (i / 100))]),
    ("Vintage", fun i =>
      [.sepia (80 * (i / 100)), .contrast (100 + 10 * (i / 100)),
       .brightness (100 - 5 * (i / 100)), .saturate (100 - 20 * (i / 100))]),
    ("Cyberpunk", fun i =>
      [.contrast (100 + 40 * (i / 100)), .hueRotate (180 * (i / 100)),
       .saturate (100 + 60 * (i / 100)), .brightness (100 + 5 * (i / 100))]),
    ("Pastel", fun i =>
      [.saturate (100 - 40 * (i / 100)), .contrast (100 - 25 * (i / 100)),
       .brightness (100 + 10 * (i / 100))]),
    ("Dreamy", fun i =>
      [.blur (3 * (i / 100)), .brightness (100 + 15 * (i / 100)),
       .contrast (100 - 15 * (i / 100)), .saturate (100 + 10 * (i / 100))]),
    ("Nashville", fun i =>
      [.sepia (20 * (i / 100)), .contrast (100 + 20 * (i / 100)),
       .brightness (100 + 5 * (i / 100)), .saturate (100 + 20 * (i / 100))]),
    ("Lomo", fun i =>
      [.saturate (100 + 50 * (i / 100)), .contrast (100 + 50 * (i / 100)),
       .sepia (30 * (i / 100))]),
    ("Gotham", fun i =>
      [.contrast (100 + 30 * (i / 100)), .brightness (100 - 10 * (i / 100)),
       .sepia (30 * (i / 100))]),
    ("Pop Art", fun i =>
      [.contrast (100 + 100 * (i / 100)), .saturate (100 + 100 * (i / 100)),
       .hueRotate (15 * (i / 100))]),
    ("Infrared", fun i =>
      [.hueRotate (-(60 * (i / 100))), .saturate (100 + 100 * (i / 100)),
       .contrast (100 + 50 * (i / 100))]),
    ("Old West", fun i =>
      [.sepia (100 * (i / 100)), .contrast (100 - 10 * (i / 100)),
       .brightness (100 + 10 * (i / 100)), .saturate (100 - 20 * (i / 100))]),
    ("Emerald City", fun i =>
      [.hueRotate (90 * (i / 100)), .saturate (100 + 50 * (i / 100)),
       .contrast (100 + 20 * (i / 100))]) ]

/-- The adjustment sliders of `ImageControlPanel` (initial values 100, 100,
100, 0, 0, 0). -/
structure Adjustments where
  brightness : ℚ
  contrast : ℚ
  saturation : ℚ
  warmth : ℚ
  tint : ℚ
  vignette : ℚ
deriving DecidableEq

/-- The adjustment part of the combined style: the five filter functions
`getCombinedStyle` always appends. -/
def adjustmentFilter (a : Adjustments) : List FilterFn :=
  [.brightness a.brightness, .contrast a.contrast, .saturate a.saturation,
   .sepia a.warmth, .hueRotate a.tint]

/-- `ImageControlPanel.getCombinedStyle`: look the active filter name up in
the table (falling back to the empty string via `?.` and `|| ''`), apply it
to the active intensity, and append the five adjustment functions. -/
def getCombinedStyle (a : Adjustments) (activeName : String) (intensity : ℚ) :
    List FilterFn :=
  ((filters.find? (fun f => f.1 == activeName)).map (fun f => f.2 intensity)).getD []
    ++ adjustmentFilter a

/-! ## The AI request wrappers -/

/-- State `ImageGenerator.handleGenerate` leaves behind: the number of
requests issued to the external service, the error banner, the generated
image, and the loading flag. -/
structure GenState where
  calls : ℕ
  error : Option String
  image : Option String
  loading : Bool
deriving DecidableEq

/-- The JS truthiness test `!prompt.trim()`: a string trims to the empty
(falsy) string exactly when every character is whitespace. -/
def isBlank (p : String) : Bool := p.data.all Char.isWhitespace

/-- `ImageGenerator.handleGenerate`: validate the prompt, then issue one
`generateImageWithGemini` request; `svc` is its result. -/
def handleGenerate (prompt : String) (prevImage : Option String)
    (svc : Except String String) : GenState :=
  if isBlank prompt then
    ⟨0, some "Please enter a prompt to generate an image.", prevImage, false⟩
  else
    match svc with
    | .ok r => ⟨1, none, some r, false⟩
    | .error m => ⟨1, some ("Generation failed: " ++ m), none, false⟩

/-- `ImageGenerator.handleUpscale`: if an image exists, issue one
`upscaleImageWithGemini` request on it. -/
def handleUpscale (prevImage : Option String)
    (svc : String → Except String String) : GenState :=
  match prevImage with
  | none => ⟨0, none, none, false⟩
  | some img =>
    match svc img with
    | .ok r => ⟨1, none, some r, false⟩
    | .error m => ⟨1, some ("Upscaling failed: " ++ m), some img, false⟩

/-- State `App.handleSubmitEdit` leaves behind. -/
structure EditState where
  calls : ℕ
  error : Option String
  editedImage : Option String
  step : EditingStep
  loading : Bool
deriving DecidableEq

/-- `App.handleSubmitEdit`: validate the prompt, then issue one
`editImageWithGemini` request; on success move to the `studio` step. -/
def handleSubmitEdit (prompt : String) (prevEdited : Option String)
    (prevStep : EditingStep) (svc : Except String String) : EditState :=
  if isBlank prompt then
    ⟨0, some "Please ensure you have a prompt written.", prevEdited, prevStep, false⟩
  else
    match svc with
    | .ok r => ⟨1, none, some ("data:image/png;base64," ++ r), .studio, false⟩
    | .error m => ⟨1, some ("Editing failed: " ++ m), none, prevStep, false⟩

/-- The retouch checkboxes of `ImageControlPanel`. -/
structure RetouchOptions where
  enhanceSkin : Bool
  brightenEyes : Bool
  whitenTeeth : Bool
  reduceDarkCircles : Bool
deriving DecidableEq

/-- The prompt `handleApplyRetouch` builds from the selected options. -/
def retouchPrompt (o : RetouchOptions) : String :=
  let commands :=
    (if o.enhanceSkin then
      ["perform skin enhancement to smooth texture and reduce blemishes"] else []) ++
    (if o.brightenEyes then ["brighten the eyes"] else []) ++
    (if o.whitenTeeth then ["whiten the teeth"] else []) ++
    (if o.reduceDarkCircles then ["reduce dark circles under the eyes"] else [])
  "Subtly retouch this portrait. Please " ++ String.intercalate ", " commands ++
    ". Maintain a natural look."

/-- State `ImageControlPanel.handleApplyRetouch` leaves behind. -/
structure RetouchState where
  calls : ℕ
  error : Option String
  displayImage : String
  retouching : Bool
deriving DecidableEq

/-- `ImageControlPanel.handleApplyRetouch`: validate the options, render the
effects canvas (`canvas`, which may reject), then issue one
`editImageWithGemini` request with the built prompt; both failure points are
caught by the same try/catch with the `Retouch failed:` prefix. -/
def handleApplyRetouch (o : RetouchOptions) (prevDisplay : String)
    (canvas : Except String String)
    (svc : String → String → Except String String) : RetouchState :=
  if (o.enhanceSkin || o.brightenEyes || o.whitenTeeth || o.reduceDarkCircles) = false then
    ⟨0, some "Please select at least one retouch option.", prevDisplay, false⟩
  else
    match canvas with
    | .error m => ⟨0, some ("Retouch failed: " ++ m), prevDisplay, false⟩
    | .ok data =>
      match svc data (retouchPrompt o) with
      | .ok r => ⟨1, none, "data:image/png;base64," ++ r, false⟩
      | .error m => ⟨1, some ("Retouch failed: " ++ m), prevDisplay, false⟩

/-! ## The two getCroppedImg helpers

The output data URL is modelled as the canvas bitmap itself (PNG encoding of
a bitmap is treated as the identity; pixels have an abstract type `γ`). -/

/-- An `img` element: natural (bitmap) size, displayed size, and the bitmap
sampled at natural coordinates. -/
structure ImgElement (γ : Type) where
  naturalWidth : ℚ
  naturalHeight : ℚ
  width : ℚ
  height : ℚ
  pix : ℚ → ℚ → γ

/-- A completed pixel crop from `react-image-crop`. -/
structure PixelCrop where
  x : ℚ
  y : ℚ
  width : ℚ
  height : ℚ
deriving DecidableEq

/-- A canvas: its pixel dimensions and the drawn content sampled at canvas
pixel coordinates. -/
structure CanvasBitmap (γ : Type) where
  width : ℚ
  height : ℚ
  pix : ℚ → ℚ → γ

/-- Sampling semantics of
`ctx.drawImage(image, sx, sy, sw, sh, dx, dy, dw, dh)`: destination point
`(u, v)` shows the source point the destination rectangle maps onto the
source rectangle. -/
def drawImageSample (img : ImgElement γ) (sx sy sw sh dx dy dw dh u v : ℚ) : γ :=
  img.pix (sx + (u - dx) * sw / dw) (sy + (v - dy) * sh / dh)

/-- `getCroppedImg` as defined in `ImageEditor`: canvas sized to the crop,
one draw call from the scaled source region. -/
def getCroppedImgEditor (img : ImgElement γ) (crop : PixelCrop) : CanvasBitmap γ :=
  let scaleX := img.naturalWidth / img.width
  let scaleY := img.naturalHeight / img.height
  { width := crop.width
    height := crop.height
    pix := fun u v =>
      drawImageSample img (crop.x * scaleX) (crop.y * scaleY)
        (crop.width * scaleX) (crop.height * scaleY) 0 0 crop.width crop.height u v }

/-- `getCroppedImg` as defined in `CropModal`: the same draw call, but the
canvas is enlarged by the device pixel ratio `dpr` and the context transform
is `setTransform(dpr, 0, 0, dpr, 0, 0)`, so canvas pixel `(u, v)` shows the
user-space point `(u/dpr, v/dpr)`. -/
def getCroppedImgModal (img : ImgElement γ) (crop : PixelCrop) (dpr : ℚ) :
    CanvasBitmap γ :=
  let scaleX := img.naturalWidth / img.width
  let scaleY := img.naturalHeight / img.height
  { width := crop.width * dpr
    height := crop.height * dpr
    pix := fun u v =>
      drawImageSample img (crop.x * scaleX) (crop.y * scaleY)
        (crop.width * scaleX) (crop.height * scaleY) 0 0 crop.width crop.height
        (u / dpr) (v / dpr) }

theorem jpegLoopAux_eq (size : ℕ → ℕ) (target q b : ℕ) :
    jpegLoopAux size target q b =
      if b > target ∧ q > 10 then
        (max 10 (q - 5) :: (jpegLoopAux size target (q - 5) (size (max 10 (q - 5)))).1,
         (jpegLoopAux size target (q - 5) (size (max 10 (q - 5)))).2)
      else ([], b) := by
  rw [jpegLoopAux]
  split <;> rfl

/-- If the loop body produced any probe at all, the loop guard held on entry. -/
theorem jpegLoopAux_entered (size : ℕ → ℕ) (target q b : ℕ)
    (h : (jpegLoopAux size target q b).1 ≠ []) : b > target ∧ q > 10 := by
  by_contra hc
  rw [jpegLoopAux_eq, if_neg hc] at h
  exact h rfl

/-- The loop's probe list is the arithmetic descent `q-5, q-10, …` (as long as
the loop runs), provided the starting quality is a multiple of 5 at least 10 —
which holds for the source's start value 0.95. -/
theorem jpegLoopAux_probes (size : ℕ → ℕ) (target : ℕ) :
    ∀ q b, 5 ∣ q → 10 ≤ q →
      (jpegLoopAux size target q b).1 =
        (List.range (jpegLoopAux size target q b).1.length).map
          (fun i => q - 5 * (i + 1)) := by
  intro q
  induction q using Nat.strong_induction_on with
  | _ q ih =>
    intro b hdvd hq
    rw [jpegLoopAux_eq]
    split
    · rename_i hcond
      have hq15 : 15 ≤ q := by omega
      have hmax : max 10 (q - 5) = q - 5 := by omega
      have hd5 : 5 ∣ (q - 5) := by omega
      have ihr := ih (q - 5) (by omega) (size (q - 5)) hd5 (by omega)
      simp only [hmax, List.length_cons]
      rw [List.range_succ_eq_map]
      simp only [List.map_cons, List.map_map]
      refine List.cons_eq_cons.mpr ⟨by omega, ?_⟩
      rw [ihr]
      simp only [List.length_map, List.length_range]
      apply List.map_congr_left
      intro i _
      simp only [Function.comp]
      omega
    · simp

/-- The final blob size is the size of the last probe (or the incoming blob
size if the loop never ran). -/
theorem jpegLoopAux_final (size : ℕ → ℕ) (target : ℕ) :
    ∀ q b, (jpegLoopAux size target q b).2 =
      ((jpegLoopAux size target q b).1).foldl (fun _ p => size p) b := by
  intro q
  induction q using Nat.strong_induction_on with
  | _ q ih =>
    intro b
    rw [jpegLoopAux_eq]
    split
    · rename_i hcond
      simp only [List.foldl_cons]
      exact ih (q - 5) (by omega) (size (max 10 (q - 5)))
    · simp

/-- The loop exits only when the blob meets the target or the quality
variable has dropped to the floor. -/
theorem jpegLoopAux_exit (size : ℕ → ℕ) (target : ℕ) :
    ∀ q b, (jpegLoopAux size target q b).2 ≤ target ∨
      q - 5 * (jpegLoopAux size target q b).1.length ≤ 10 := by
  intro q
  induction q using Nat.strong_induction_on with
  | _ q ih =>
    intro b
    rw [jpegLoopAux_eq]
    split
    · rename_i hcond
      rcases ih (q - 5) (by omega) (size (max 10 (q - 5))) with h | h
      · exact Or.inl h
      · right
        simp only [List.length_cons]
        omega
    · rename_i hcond
      simp only [List.length_nil]
      omega

/-- Every probe the loop continued past failed both guard conditions'
negations: its blob exceeded the target, and the quality variable was still
above the floor. -/
theorem jpegLoopAux_continue (size : ℕ → ℕ) (target : ℕ) :
    ∀ q b i, i + 1 < (jpegLoopAux size target q b).1.length →
      target < size ((jpegLoopAux size target q b).1.getD i 0) := by
  intro q
  induction q using Nat.strong_induction_on with
  | _ q ih =>
    intro b i hi
    rw [jpegLoopAux_eq] at hi ⊢
    split at hi
    · rename_i hcond
      simp only [List.length_cons] at hi
      rw [if_pos hcond]
      match i with
      | 0 =>
        simp only [List.getD_cons_zero]
        have hne : (jpegLoopAux size target (q - 5) (size (max 10 (q - 5)))).1 ≠ [] := by
          intro hnil
          rw [hnil] at hi
          simp at hi
        exact (jpegLoopAux_entered size target _ _ hne).1
      | i + 1 =>
        simp only [List.getD_cons_succ]
        exact ih (q - 5) (by omega) (size (max 10 (q - 5))) i (by omega)
    · simp at hi

/-- The loop makes at most `(q - 10) / 5` iterations: each one lowers the
quality variable by 5 and the loop stops at the floor `0.1`. -/
theorem jpegLoopAux_length (size : ℕ → ℕ) (target : ℕ) :
    ∀ q b, 5 ∣ q → 10 ≤ q →
      5 * (jpegLoopAux size target q b).1.length ≤ q - 10 := by
  intro q
  induction q using Nat.strong_induction_on with
  | _ q ih =>
    intro b hdvd hq
    rw [jpegLoopAux_eq]
    split
    · rename_i hcond
      have hq15 : 15 ≤ q := by omega
      have := ih (q - 5) (by omega) (size (max 10 (q - 5))) (by omega) (by omega)
      simp only [List.length_cons]
      omega
    · simp

/-- The full probe list of the target-size branch is the descending arithmetic
sequence `0.95, 0.90, 0.85, …` (hundredths), cut off where the loop exits. -/
theorem jpegProbes_eq (size : ℕ → ℕ) (target : ℕ) :
    jpegProbes size target =
      (List.range (jpegProbes size target).length).map (fun i => 95 - 5 * i) := by
  unfold jpegProbes jpegTargetEncode
  simp only [List.length_cons]
  rw [List.range_succ_eq_map]
  simp only [List.map_cons, List.map_map]
  refine List.cons_eq_cons.mpr ⟨by omega, ?_⟩
  rw [jpegLoopAux_probes size target 95 (size 95) (by omega) (by omega)]
  simp only [List.length_map, List.length_range]
  apply List.map_congr_left
  intro i _
  simp only [Function.comp_apply]

/-- The probe list of the target-size branch is never longer than 18: the
initial encode at 0.95 plus at most 17 loop iterations down to the floor. -/
theorem jpegProbes_length_le (size : ℕ → ℕ) (target : ℕ) :
    (jpegProbes size target).length ≤ 18 := by
  have h := jpegLoopAux_length size target 95 (size 95) (by omega) (by omega)
  unfold jpegProbes jpegTargetEncode
  simp only [List.length_cons]
  omega

theorem binarySearchAux_eq (size : ℕ → ℕ) (target lo hi : ℕ) :
    binarySearchAux size target lo hi =
      if lo + 1 < hi then
        if size ((lo + hi) / 2) ≤ target then
          (lo + hi) / 2 :: binarySearchAux size target ((lo + hi) / 2) hi
        else
          (lo + hi) / 2 :: binarySearchAux size target lo ((lo + hi) / 2)
      else [] := by
  rw [binarySearchAux]

theorem binarySearchQuality_eq (size : ℕ → ℕ) (target lo hi : ℕ) :
    binarySearchQuality size target lo hi =
      if lo + 1 < hi then
        if size ((lo + hi) / 2) ≤ target then
          binarySearchQuality size target ((lo + hi) / 2) hi
        else
          binarySearchQuality size target lo ((lo + hi) / 2)
      else lo := by
  rw [binarySearchQuality]

/-- C1 (counterexample): the claim says the quality meeting the target file
size is found by a *binary search* over JPEG quality.  On the concrete
monotone size function `size q = 1000·q` with target 87000 bytes, the code
probes the qualities `0.95, 0.90, 0.85` (a linear descent) and settles on
`0.85`, while a binary search over the quality interval probes midpoints and
settles on `0.87`: neither the probe sequence nor the resulting quality is
that of a binary search. -/
theorem jpeg_target_not_binary_search :
    jpegProbes (fun q => 1000 * q) 87000 = [95, 90, 85] ∧
    binarySearchProbes (fun q => 1000 * q) 87000 = [52, 73, 84, 89, 86, 87, 88] ∧
    jpegProbes (fun q => 1000 * q) 87000 ≠ binarySearchProbes (fun q => 1000 * q) 87000 ∧
    binarySearchQuality (fun q => 1000 * q) 87000 10 95 = 87 ∧
    (jpegProbes (fun q => 1000 * q) 87000).getD
      ((jpegProbes (fun q => 1000 * q) 87000).length - 1) 0 = 85 := by
  have h1 : jpegProbes (fun q => 1000 * q) 87000 = [95, 90, 85] := by
    simp [jpegProbes, jpegTargetEncode, jpegLoopAux_eq]
  have h2 : binarySearchProbes (fun q => 1000 * q) 87000 = [52, 73, 84, 89, 86, 87, 88] := by
    simp [binarySearchProbes, binarySearchAux_eq]
  refine ⟨h1, h2, ?_, ?_, ?_⟩
  · rw [h1, h2]; simp
  · simp [binarySearchQuality_eq]
  · rw [h1]; rfl

/-- C1 (amended): in the JPEG target-size export, the quality meeting the
target file size is found by a *linear descending scan*: the encode qualities
are `0.95 - 0.05·i` in order, every probe the loop moved past exceeded the
target, and the scan stops with a blob within the target or at the quality
floor `0.1`. -/
theorem jpeg_target_quality_linear_scan (size : ℕ → ℕ) (target : ℕ) :
    jpegProbes size target =
      (List.range (jpegProbes size target).length).map (fun i => 95 - 5 * i) ∧
    (∀ i, i + 1 < (jpegProbes size target).length →
      target < size ((jpegProbes size target).getD i 0)) ∧
    ((jpegTargetEncode size target).2 ≤ target ∨
      95 - 5 * ((jpegProbes size target).length - 1) = 10) := by
  refine ⟨jpegProbes_eq size target, ?_, ?_⟩
  · intro i hi
    have hlist : jpegProbes size target = 95 :: (jpegLoopAux size target 95 (size 95)).1 := rfl
    rw [hlist] at hi ⊢
    simp only [List.length_cons] at hi
    match i with
    | 0 =>
      simp only [List.getD_cons_zero]
      have hne : (jpegLoopAux size target 95 (size 95)).1 ≠ [] := by
        intro hnil
        rw [hnil] at hi
        simp at hi
      exact (jpegLoopAux_entered size target 95 (size 95) hne).1
    | i + 1 =>
      simp only [List.getD_cons_succ]
      exact jpegLoopAux_continue size target 95 (size 95) i (by omega)
  · have hexit := jpegLoopAux_exit size target 95 (size 95)
    have hlen := jpegLoopAux_length size target 95 (size 95) (by omega) (by omega)
    have hfin : (jpegTargetEncode size target).2 =
        (jpegLoopAux size target 95 (size 95)).2 := rfl
    have hlen2 : (jpegProbes size target).length =
        (jpegLoopAux size target 95 (size 95)).1.length + 1 := by
      simp [jpegProbes, jpegTargetEncode]
    rcases hexit with h | h
    · exact Or.inl (hfin ▸ h)
    · right
      omega

/-- C1 witness: concrete run of the amended statement, `size q = 1000·q`,
target 87000: the first probe is non-final and its blob exceeds the target. -/
theorem jpeg_target_quality_linear_scan_witness :
    (0 + 1 < (jpegProbes (fun q => 1000 * q) 87000).length) ∧
    87000 < 1000 * ((jpegProbes (fun q => 1000 * q) 87000).getD 0 0) :=
  ⟨by simp [jpegProbes, jpegTargetEncode, jpegLoopAux_eq],
   (jpeg_target_quality_linear_scan (fun q => 1000 * q) 87000).2.1 0
     (by simp [jpegProbes, jpegTargetEncode, jpegLoopAux_eq])⟩

/-- C2: the JPEG target-size loop is a linear quality-reduction loop with a
fixed step: it starts at quality `0.95`, each iteration lowers the quality by
exactly `0.05`, the loop is bounded (at most 18 encodes in total), it exits
with a blob within the target or with the quality at the floor `0.1`, and it
runs past a probe only while the blob still exceeds the target and the
quality is still above `0.1`. -/
theorem jpeg_target_loop_linear_step (size : ℕ → ℕ) (target : ℕ) :
    (jpegProbes size target).getD 0 0 = 95 ∧
    List.Chain' (fun a b => a = b + 5) (jpegProbes size target) ∧
    (jpegProbes size target).length ≤ 18 ∧
    ((jpegTargetEncode size target).2 ≤ target ∨
      95 - 5 * ((jpegProbes size target).length - 1) = 10) ∧
    (∀ i, i + 1 < (jpegProbes size target).length →
      target < size ((jpegProbes size target).getD i 0) ∧ 10 < 95 - 5 * i) := by
  have hlen18 := jpegProbes_length_le size target
  refine ⟨rfl, ?_, hlen18, ?_, ?_⟩
  · rw [jpegProbes_eq size target]
    rcases hn : (jpegProbes size target).length with _ | m
    · simp
    · rw [List.chain'_map, List.chain'_range_succ]
      intro i hi
      omega
  · have hexit := jpegLoopAux_exit size target 95 (size 95)
    have hlen := jpegLoopAux_length size target 95 (size 95) (by omega) (by omega)
    have hlen2 : (jpegProbes size target).length =
        (jpegLoopAux size target 95 (size 95)).1.length + 1 := by
      simp [jpegProbes, jpegTargetEncode]
    rcases hexit with h | h
    · exact Or.inl h
    · right; omega
  · intro i hi
    refine ⟨?_, by omega⟩
    have hlist : jpegProbes size target = 95 :: (jpegLoopAux size target 95 (size 95)).1 := rfl
    rw [hlist] at hi ⊢
    simp only [List.length_cons] at hi
    match i with
    | 0 =>
      simp only [List.getD_cons_zero]
      have hne : (jpegLoopAux size target 95 (size 95)).1 ≠ [] := by
        intro hnil
        rw [hnil] at hi
        simp at hi
      exact (jpegLoopAux_entered size target 95 (size 95) hne).1
    | i + 1 =>
      simp only [List.getD_cons_succ]
      exact jpegLoopAux_continue size target 95 (size 95) i (by omega)

/-- C2 witness: concrete run with `size q = 10·q`, target 800 bytes: probes
are `0.95, 0.90, 0.85, 0.80`; probe 1 (quality `0.90`) is non-final, its blob
exceeded the target, and the quality was still above the floor. -/
theorem jpeg_target_loop_linear_step_witness :
    (1 + 1 < (jpegProbes (fun q => 10 * q) 800).length) ∧
    (800 < 10 * ((jpegProbes (fun q => 10 * q) 800).getD 1 0) ∧ 10 < 95 - 5 * 1) :=
  ⟨by simp [jpegProbes, jpegTargetEncode, jpegLoopAux_eq],
   (jpeg_target_loop_linear_step (fun q => 10 * q) 800).2.2.2.2 1
     (by simp [jpegProbes, jpegTargetEncode, jpegLoopAux_eq])⟩

/-- C9: every quality passed to the blob encoder by the JPEG target-size
branch lies in `[0.1, 0.95]` (hundredths `[10, 95]`); the first encode uses
exactly `0.95`. -/
theorem jpeg_probe_quality_bounds (size : ℕ → ℕ) (target : ℕ) :
    (jpegProbes size target).getD 0 0 = 95 ∧
    ∀ p ∈ jpegProbes size target, 10 ≤ p ∧ p ≤ 95 := by
  refine ⟨rfl, ?_⟩
  intro p hp
  have hlen := jpegProbes_length_le size target
  rw [jpegProbes_eq size target] at hp
  obtain ⟨i, hi, rfl⟩ := List.mem_map.mp hp
  rw [List.mem_range] at hi
  omega

/-- C9 witness: with `size q = 10·q` and target 800 bytes, `0.90` is a probed
quality and lies within the bounds. -/
theorem jpeg_probe_quality_bounds_witness :
    (90 ∈ jpegProbes (fun q => 10 * q) 800) ∧ (10 ≤ 90 ∧ 90 ≤ 95) :=
  ⟨by simp [jpegProbes, jpegTargetEncode, jpegLoopAux_eq],
   (jpeg_probe_quality_bounds (fun q => 10 * q) 800).2 90
     (by simp [jpegProbes, jpegTargetEncode, jpegLoopAux_eq])⟩

/-- C3 (counterexample): the claim describes the flow as
"upload → choice → ai-edit/studio → result".  The state variable has a fifth
member `generation`, reachable by a transition from `upload`, which is not
among the claimed flow steps; and no step is named `result` (the result view
is rendered by the `studio` step). -/
theorem app_flow_claim_false :
    appTransition .upload .startGeneration = some .generation ∧
    stepName .generation ∉ claimedFlowSteps ∧
    (∀ s : EditingStep, stepName s ≠ "result") := by
  decide

/-- C3 (amended): the UI flow is driven by the single state variable
`editingStep` ranging over the five named steps `upload`, `choice`,
`ai-edit`, `studio`, `generation`; every transition stays in this set; the
flow proceeds upload → choice → ai-edit/studio (the `studio` step renders the
result view), with the additional generation path upload → generation →
studio; and rendering is a plain switch on the variable. -/
theorem app_flow_switch :
    (∀ s : EditingStep, s ∈ editingSteps) ∧
    (∀ (s : EditingStep) (e : AppEvent) (s' : EditingStep),
      appTransition s e = some s' → s' ∈ editingSteps) ∧
    appTransition .upload .uploadDone = some .choice ∧
    appTransition .choice .chooseAiEdit = some .aiEdit ∧
    appTransition .choice .chooseManual = some .studio ∧
    appTransition .aiEdit .editSubmitOk = some .studio ∧
    appTransition .upload .startGeneration = some .generation ∧
    appTransition .generation .generated = some .studio ∧
    renderContent true .upload = some .imageUploader ∧
    renderContent true .generation = some .imageGenerator ∧
    renderContent true .choice = some .editorChoice ∧
    renderContent true .aiEdit = some .imageEditor ∧
    renderContent true .studio = some .resultDisplay := by
  decide

/-- C3 witness: a concrete transition of the amended statement: uploading an
image moves `upload` to `choice`, which is one of the five steps. -/
theorem app_flow_switch_witness :
    appTransition .upload .uploadDone = some .choice ∧
    EditingStep.choice ∈ editingSteps :=
  ⟨by decide, app_flow_switch.2.1 .upload .uploadDone .choice (by decide)⟩

/-- C4: `handleDownload` resets `isProcessing` in all cases; if rendering the
canvas or any blob conversion rejects, the single catch records the message,
no download is triggered and the modal stays open; only a fully successful
body triggers the download. -/
theorem download_failure_handling (fmt : DlFormat) (targetEnabled : Bool)
    (sizeVal : ℕ) (unitKB : Bool) (jpegQuality : ℕ) (canvas : Except String Unit)
    (encPng : Except String ℕ) (encJpeg : ℕ → Except String ℕ) :
    (handleDownload fmt targetEnabled sizeVal unitKB jpegQuality canvas encPng
        encJpeg).isProcessing = false ∧
    (∀ m, canvas = .error m →
      handleDownload fmt targetEnabled sizeVal unitKB jpegQuality canvas encPng
          encJpeg = ⟨false, some m, false, false⟩) ∧
    (∀ m, downloadBody fmt targetEnabled sizeVal unitKB jpegQuality canvas encPng
          encJpeg = .error m →
      handleDownload fmt targetEnabled sizeVal unitKB jpegQuality canvas encPng
          encJpeg = ⟨false, some m, false, false⟩) ∧
    (∀ b, downloadBody fmt targetEnabled sizeVal unitKB jpegQuality canvas encPng
          encJpeg = .ok b →
      handleDownload fmt targetEnabled sizeVal unitKB jpegQuality canvas encPng
          encJpeg = ⟨false, none, true, true⟩) := by
  refine ⟨?_, ?_, ?_, ?_⟩
  · unfold handleDownload
    rcases hb : downloadBody fmt targetEnabled sizeVal unitKB jpegQuality canvas
      encPng encJpeg with m | b <;> simp
  · intro m hm
    subst hm
    rfl
  · intro m hm
    unfold handleDownload
    rw [hm]
  · intro b hb
    unfold handleDownload
    rw [hb]

/-- C4 witness: a concrete failing canvas render: the error is recorded, no
download fires, `isProcessing` ends false. -/
theorem download_failure_handling_witness :
    handleDownload .png false 100 true 92 (.error "canvas fail") (.ok 10)
        (fun _ => .ok 10) = ⟨false, some "canvas fail", false, false⟩ :=
  (download_failure_handling .png false 100 true 92 (.error "canvas fail")
      (.ok 10) (fun _ => .ok 10)).2.1 "canvas fail" rfl

/-- C5: the filter system is the static 21-entry table of named presets;
whenever the active name is found, `getCombinedStyle` is the instantiated
preset followed by exactly the five adjustment functions brightness,
contrast, saturate, sepia (warmth) and hue-rotate (tint); and in every case
the result ends in exactly those five functions. -/
theorem filter_table_lookup (a : Adjustments) (name : String) (i : ℚ) :
    filters.map Prod.fst =
      ["None", "Auto Enhance", "Grayscale", "Sepia", "Invert", "Noir", "Vibrant",
       "Cool", "Warm", "High Contrast", "Vintage", "Cyberpunk", "Pastel",
       "Dreamy", "Nashville", "Lomo", "Gotham", "Pop Art", "Infrared",
       "Old West", "Emerald City"] ∧
    (∀ p, filters.find? (fun f => f.1 == name) = some p →
      getCombinedStyle a name i =
        p.2 i ++ [FilterFn.brightness a.brightness, FilterFn.contrast a.contrast,
          FilterFn.saturate a.saturation, FilterFn.sepia a.warmth,
          FilterFn.hueRotate a.tint]) ∧
    (getCombinedStyle a name i).drop ((getCombinedStyle a name i).length - 5) =
      [FilterFn.brightness a.brightness, FilterFn.contrast a.contrast,
       FilterFn.saturate a.saturation, FilterFn.sepia a.warmth,
       FilterFn.hueRotate a.tint] := by
  refine ⟨rfl, ?_, ?_⟩
  · intro p hp
    simp [getCombinedStyle, hp, adjustmentFilter]
  · unfold getCombinedStyle
    have h5 : (adjustmentFilter a).length = 5 := rfl
    rw [List.length_append, h5, Nat.add_sub_cancel, List.drop_left]
    rfl

/-- C5 witness: the `Sepia` preset is found in the table and the combined
style at default adjustments is its instantiation followed by the five
adjustment functions. -/
theorem filter_table_lookup_witness :
    filters.find? (fun f => f.1 == "Sepia") =
        some ("Sepia", fun i => [FilterFn.sepia i]) ∧
    getCombinedStyle ⟨100, 100, 100, 0, 0, 0⟩ "Sepia" 50 =
      (fun i : ℚ => [FilterFn.sepia i]) 50 ++
        [FilterFn.brightness 100, FilterFn.contrast 100, FilterFn.saturate 100,
         FilterFn.sepia 0, FilterFn.hueRotate 0] :=
  ⟨rfl, (filter_table_lookup ⟨100, 100, 100, 0, 0, 0⟩ "Sepia" 50).2.1
      ("Sepia", fun i => [FilterFn.sepia i]) rfl⟩

/-- C10: `getCombinedStyle` is total in the active filter name: an unknown
name falls back to the empty preset and the result is the five adjustment
functions alone. -/
theorem getCombinedStyle_unknown_name (a : Adjustments) (name : String) (i : ℚ)
    (h : name ∉ filters.map Prod.fst) :
    getCombinedStyle a name i = adjustmentFilter a := by
  have hf : filters.find? (fun f => f.1 == name) = none := by
    rw [List.find?_eq_none]
    intro x hx
    simp only [beq_iff_eq]
    intro heq
    exact h (List.mem_map.mpr ⟨x, hx, heq⟩)
  simp [getCombinedStyle, hf]

/-- C10 witness: the name `Bogus` is not in the table and yields the five
adjustment functions alone. -/
theorem getCombinedStyle_unknown_name_witness :
    "Bogus" ∉ filters.map Prod.fst ∧
    getCombinedStyle ⟨100, 100, 100, 0, 0, 0⟩ "Bogus" 100 =
      adjustmentFilter ⟨100, 100, 100, 0, 0, 0⟩ :=
  ⟨by decide, getCombinedStyle_unknown_name ⟨100, 100, 100, 0, 0, 0⟩ "Bogus" 100
      (by decide)⟩

/-- C6: each AI operation is a single-shot wrapper: at most one request is
ever issued; exactly one is issued once the UI guard passes; and on a failed
request the error is surfaced with the operation prefix with no further
request (the state records exactly one call). -/
theorem ai_single_shot_wrappers :
    (∀ p prev svc, (handleGenerate p prev svc).calls ≤ 1) ∧
    (∀ p prev svc, isBlank p = false → (handleGenerate p prev svc).calls = 1) ∧
    (∀ p prev m, isBlank p = false →
      handleGenerate p prev (.error m) =
        ⟨1, some ("Generation failed: " ++ m), none, false⟩) ∧
    (∀ prev svc, (handleUpscale prev svc).calls ≤ 1) ∧
    (∀ img svc, (handleUpscale (some img) svc).calls = 1) ∧
    (∀ img m, handleUpscale (some img) (fun _ => .error m) =
      ⟨1, some ("Upscaling failed: " ++ m), some img, false⟩) ∧
    (∀ p pe ps svc, (handleSubmitEdit p pe ps svc).calls ≤ 1) ∧
    (∀ p pe ps svc, isBlank p = false → (handleSubmitEdit p pe ps svc).calls = 1) ∧
    (∀ p pe ps m, isBlank p = false →
      handleSubmitEdit p pe ps (.error m) =
        ⟨1, some ("Editing failed: " ++ m), none, ps, false⟩) ∧
    (∀ o d canvas svc, (handleApplyRetouch o d canvas svc).calls ≤ 1) ∧
    (∀ o d data svc,
      (o.enhanceSkin || o.brightenEyes || o.whitenTeeth || o.reduceDarkCircles) = true →
      (handleApplyRetouch o d (.ok data) svc).calls = 1) ∧
    (∀ o d data m,
      (o.enhanceSkin || o.brightenEyes || o.whitenTeeth || o.reduceDarkCircles) = true →
      handleApplyRetouch o d (.ok data) (fun _ _ => .error m) =
        ⟨1, some ("Retouch failed: " ++ m), d, false⟩) ∧
    (∀ o d m svc,
      (o.enhanceSkin || o.brightenEyes || o.whitenTeeth || o.reduceDarkCircles) = true →
      handleApplyRetouch o d (.error m) svc =
        ⟨0, some ("Retouch failed: " ++ m), d, false⟩) := by
  refine ⟨?_, ?_, ?_, ?_, ?_, ?_, ?_, ?_, ?_, ?_, ?_, ?_, ?_⟩
  · intro p prev svc
    unfold handleGenerate
    split
    · simp
    · cases svc <;> simp
  · intro p prev svc h
    cases svc <;> simp [handleGenerate, h]
  · intro p prev m h
    simp [handleGenerate, h]
  · intro prev svc
    rcases prev with _ | img
    · simp [handleUpscale]
    · cases hsvc : svc img <;> simp [handleUpscale, hsvc]
  · intro img svc
    cases hsvc : svc img <;> simp [handleUpscale, hsvc]
  · intro img m
    rfl
  · intro p pe ps svc
    unfold handleSubmitEdit
    split
    · simp
    · cases svc <;> simp
  · intro p pe ps svc h
    cases svc <;> simp [handleSubmitEdit, h]
  · intro p pe ps m h
    simp [handleSubmitEdit, h]
  · intro o d canvas svc
    unfold handleApplyRetouch
    split
    · simp
    · rcases canvas with m | data
      · simp
      · cases hsvc : svc data (retouchPrompt o) <;> simp [hsvc]
  · intro o d data svc h
    cases hsvc : svc data (retouchPrompt o) <;>
      simp [handleApplyRetouch, h, hsvc]
  · intro o d data m h
    simp [handleApplyRetouch, h]
  · intro o d m svc h
    simp [handleApplyRetouch, h]

/-- C6 witness: a concrete failed generation with a non-empty prompt: one
call was made and the error is surfaced with the `Generation failed:`
prefix. -/
theorem ai_single_shot_wrappers_witness :
    (isBlank "a cat" = false) ∧
    handleGenerate "a cat" none (.error "quota") =
      ⟨1, some ("Generation failed: " ++ "quota"), none, false⟩ :=
  ⟨by decide, ai_single_shot_wrappers.2.2.1 "a cat" none "quota" (by decide)⟩

/-- C7 (counterexample): the claim says the cropped canvas dimensions equal
the crop dimensions, but the `CropModal` variant of `getCroppedImg` scales
the canvas by `window.devicePixelRatio`: at ratio 2 a 50×40 crop yields a
100×80 canvas. -/
theorem cropModal_canvas_not_crop_sized :
    (getCroppedImgModal
        (⟨200, 100, 100, 50, fun x y => (x, y)⟩ : ImgElement (ℚ × ℚ))
        ⟨10, 20, 50, 40⟩ 2).width = 100 ∧
    (PixelCrop.mk 10 20 50 40).width = 50 ∧ (100 : ℚ) ≠ 50 := by
  refine ⟨?_, rfl, by norm_num⟩
  show (50 : ℚ) * 2 = 100
  norm_num

/-- C7 (amended): both `getCroppedImg` variants draw the source region with
origin `(crop.x·scaleX, crop.y·scaleY)` and size
`(crop.width·scaleX, crop.height·scaleY)` — `scaleX`, `scaleY` the ratios of
natural to displayed size.  The `ImageEditor` variant uses a canvas whose
dimensions equal the crop dimensions, canvas pixel `(u, v)` sampling the
source point `origin + (u·scaleX, v·scaleY)`; the `CropModal` variant uses a
canvas scaled by the device pixel ratio, canvas pixel `(u, v)` sampling the
source point `origin + ((u/dpr)·scaleX, (v/dpr)·scaleY)` of the same
region. -/
theorem getCroppedImg_spec {γ : Type} (img : ImgElement γ) (crop : PixelCrop)
    (dpr : ℚ) :
    (getCroppedImgEditor img crop).width = crop.width ∧
    (getCroppedImgEditor img crop).height = crop.height ∧
    (∀ u v, crop.width ≠ 0 → crop.height ≠ 0 →
      (getCroppedImgEditor img crop).pix u v =
        img.pix (crop.x * (img.naturalWidth / img.width) +
                  u * (img.naturalWidth / img.width))
                (crop.y * (img.naturalHeight / img.height) +
                  v * (img.naturalHeight / img.height))) ∧
    (getCroppedImgModal img crop dpr).width = crop.width * dpr ∧
    (getCroppedImgModal img crop dpr).height = crop.height * dpr ∧
    (∀ u v, crop.width ≠ 0 → crop.height ≠ 0 →
      (getCroppedImgModal img crop dpr).pix u v =
        img.pix (crop.x * (img.naturalWidth / img.width) +
                  u / dpr * (img.naturalWidth / img.width))
                (crop.y * (img.naturalHeight / img.height) +
                  v / dpr * (img.naturalHeight / img.height))) := by
  have key : ∀ (t s w : ℚ), w ≠ 0 → (t - 0) * (w * s) / w = t * s := by
    intro t s w hwne
    rw [sub_zero, mul_comm w s, mul_comm t (s * w), mul_assoc, mul_comm w t,
      ← mul_assoc, mul_div_assoc, div_self hwne, mul_one, mul_comm]
  refine ⟨rfl, rfl, ?_, rfl, rfl, ?_⟩
  · intro u v hw hh
    show img.pix
        (crop.x * (img.naturalWidth / img.width) +
          (u - 0) * (crop.width * (img.naturalWidth / img.width)) / crop.width)
        (crop.y * (img.naturalHeight / img.height) +
          (v - 0) * (crop.height * (img.naturalHeight / img.height)) / crop.height)
        = _
    rw [key u _ _ hw, key v _ _ hh]
  · intro u v hw hh
    show img.pix
        (crop.x * (img.naturalWidth / img.width) +
          (u / dpr - 0) * (crop.width * (img.naturalWidth / img.width)) / crop.width)
        (crop.y * (img.naturalHeight / img.height) +
          (v / dpr - 0) * (crop.height * (img.naturalHeight / img.height)) / crop.height)
        = _
    rw [key (u / dpr) _ _ hw, key (v / dpr) _ _ hh]

/-- C7 witness: concrete image 200×100 displayed at 100×50 (scale factors 2),
crop at (10, 20) of size 50×40: the editor canvas pixel (3, 4) samples
natural coordinates (26, 48), and at device pixel ratio 2 the modal canvas
pixel (6, 8) samples the same natural coordinates. -/
theorem getCroppedImg_spec_witness :
    ((50 : ℚ) ≠ 0) ∧ ((40 : ℚ) ≠ 0) ∧
    (getCroppedImgEditor
        (⟨200, 100, 100, 50, fun x y => (x, y)⟩ : ImgElement (ℚ × ℚ))
        ⟨10, 20, 50, 40⟩).pix 3 4 =
      (10 * ((200 : ℚ) / 100) + 3 * ((200 : ℚ) / 100),
       20 * ((100 : ℚ) / 50) + 4 * ((100 : ℚ) / 50)) ∧
    (getCroppedImgModal
        (⟨200, 100, 100, 50, fun x y => (x, y)⟩ : ImgElement (ℚ × ℚ))
        ⟨10, 20, 50, 40⟩ 2).pix 6 8 =
      (10 * ((200 : ℚ) / 100) + 6 / 2 * ((200 : ℚ) / 100),
       20 * ((100 : ℚ) / 50) + 8 / 2 * ((100 : ℚ) / 50)) :=
  ⟨by norm_num, by norm_num,
   (getCroppedImg_spec (⟨200, 100, 100, 50, fun x y => (x, y)⟩ : ImgElement (ℚ × ℚ))
      ⟨10, 20, 50, 40⟩ 2).2.2.1 3 4 (by norm_num) (by norm_num),
   (getCroppedImg_spec (⟨200, 100, 100, 50, fun x y => (x, y)⟩ : ImgElement (ℚ × ℚ))
      ⟨10, 20, 50, 40⟩ 2).2.2.2.2.2 6 8 (by norm_num) (by norm_num)⟩

/-- C8 (counterexample): the two `getCroppedImg` helpers are not equivalent:
at device pixel ratio 2 they produce canvases of different dimensions from
the same image element and pixel crop. -/
theorem getCroppedImg_variants_differ :
    getCroppedImgModal
        (⟨200, 100, 100, 50, fun x y => (x, y)⟩ : ImgElement (ℚ × ℚ))
        ⟨10, 20, 50, 40⟩ 2 ≠
      getCroppedImgEditor
        (⟨200, 100, 100, 50, fun x y => (x, y)⟩ : ImgElement (ℚ × ℚ))
        ⟨10, 20, 50, 40⟩ := by
  intro h
  have hw := congrArg CanvasBitmap.width h
  simp only [getCroppedImgModal, getCroppedImgEditor] at hw
  norm_num at hw

/-- C8 (amended): the two `getCroppedImg` helpers agree exactly when the
device pixel ratio is 1: the canvases have the same dimensions and the same
content everywhere. -/
theorem getCroppedImg_variants_agree_at_unit_ratio {γ : Type}
    (img : ImgElement γ) (crop : PixelCrop) :
    getCroppedImgModal img crop 1 = getCroppedImgEditor img crop := by
  unfold getCroppedImgModal getCroppedImgEditor
  simp only [mul_one, div_one]

end Golder
